import Mathlib

set_option autoImplicit false

/-!
Shallow embedding of the MemOS integration-glue excerpt:
user-manager configuration factories, the Postgres user manager,
the OpenAI LLM wrapper and the universal-API embedder, together with
theorems settling the specification claims about them.
-/

namespace MemOS

/-! ## Python-style helpers

`os.environ` is modelled as an association list from variable names to
values; an absent key models an unset variable.  Python string
truthiness (both `None` and `""` are falsy) is modelled explicitly
where the source relies on it.
-/

/-- The process environment: a finite map from variable names to values. -/
abbrev Env := List (String × String)

/-- `os.getenv(key)`: `none` models an unset variable. -/
def osGetenv (env : Env) (key : String) : Option String :=
  match env with
  | [] => none
  | (k, v) :: rest => if k = key then some v else osGetenv rest key

/-- `os.getenv(key, default)`: the default is used only when the variable is unset. -/
def osGetenvD (env : Env) (key dflt : String) : String :=
  (osGetenv env key).getD dflt

/-- Python `a or b` for an optional string `a` (both `None` and `""` are falsy). -/
def pyOrStr (a : Option String) (b : String) : String :=
  match a with
  | none => b
  | some s => if s = "" then b else s

/-- Boolean prefix test on lists (Python `str.startswith` at the list level). -/
def listIsPrefix {α : Type} [DecidableEq α] : List α → List α → Bool
  | [], _ => true
  | _ :: _, [] => false
  | a :: as, b :: bs => if a = b then listIsPrefix as bs else false

/-- Boolean infix test on lists, used to model Python `pat in s` on strings. -/
def listHasInfix {α : Type} [DecidableEq α] (pat : List α) : List α → Bool
  | [] => pat.isEmpty
  | a :: rest => listIsPrefix pat (a :: rest) || listHasInfix pat rest

/-- Python `pat in s` for strings. -/
def strContains (s pat : String) : Bool :=
  listHasInfix pat.data s.data

/-- Python `s.startswith(pfx)`. -/
def pyStartsWith (s pfx : String) : Bool :=
  listIsPrefix pfx.data s.data

/-- Python `s.lower()` (ASCII case folding, as used on the ASCII
model names, env values and error patterns of this code base). -/
def pyToLower (s : String) : String :=
  ⟨s.data.map Char.toLower⟩

/-- Python `s.strip()`: removes leading and trailing whitespace. -/
def pyStrip (s : String) : String :=
  ⟨((s.data.dropWhile Char.isWhitespace).reverse.dropWhile Char.isWhitespace).reverse⟩

/-! ## Postgres schema-name validation

`_validate_schema` from `memos/mem_user/postgres_user_manager.py`.
`string.ascii_letters` is the ASCII alphabet, so the character tests are
`Char.isAlpha`/`Char.isDigit` (ASCII-only in Lean core).  Raising
`ValueError` is modelled by `Except.error` carrying the message.
-/

/-- Characters allowed in a Postgres schema name (`_ALLOWED_SCHEMA_CHARS`). -/
def allowedSchemaChar (c : Char) : Bool :=
  c.isAlpha || c.isDigit || c = '_'

/-- `_validate_schema`: rejects empty names, names not starting with an ASCII
letter or underscore, and names with characters outside `[A-Za-z0-9_]`;
otherwise returns the schema unchanged. -/
def validate_schema (schema : String) : Except String String :=
  match schema.data with
  | [] => .error "Postgres schema name cannot be empty"
  | c :: _ =>
    if ¬(c.isAlpha || c = '_') then
      .error "Postgres schema name must start with a letter or underscore"
    else if schema.data.any (fun ch => ¬allowedSchemaChar ch) then
      .error "Postgres schema name may only contain letters, numbers, and underscores"
    else
      .ok schema

/-! ## OpenAI LLM wrapper: request shaping

`OpenAILLM.generate` from `memos/llms/openai.py` builds a kwargs dict for
`chat.completions.create`.  The dict is modelled as an ordered association
list with Python-dict update (`d[k] = v`), pop and membership operations.
-/

/-- A kwargs value.  Message lists are opaque (`vMsgs`); `extra_body` is either
`None` or a string-keyed dict whose values are opaque strings. -/
inductive Val where
  | vStr : String → Val
  | vInt : Int → Val
  | vRat : ℚ → Val
  | vMsgs : Val
  | vBody : Option (List (String × String)) → Val
deriving DecidableEq

/-- Ordered string-keyed dict. -/
abbrev Kwargs := List (String × Val)

/-- Python `d[k] = v`: updates in place if the key exists, else appends. -/
def dictSet (d : Kwargs) (k : String) (v : Val) : Kwargs :=
  if d.any (fun p => p.1 = k) then
    d.map (fun p => if p.1 = k then (k, v) else p)
  else
    d ++ [(k, v)]

/-- Python `d.pop(k)` (the remaining dict). -/
def dictPop (d : Kwargs) (k : String) : Kwargs :=
  d.filter (fun p => p.1 ≠ k)

/-- Python `d.get(k)` / `k in d` support. -/
def dictGet : Kwargs → String → Option Val
  | [], _ => none
  | (k, v) :: rest, key => if k = key then some v else dictGet rest key

/-- Modelled from the spec: `OpenAILLMConfig` (`memos/configs/llm.py`) is not
part of this excerpt.  Per the spec's request-shaping contract the config is a
flat field bag carrying the model name, sampling parameters (`temperature`,
`top_p`), an integer `max_tokens`, an optional `max_completion_tokens` (absent
attributes are read with `getattr(..., None)` in the source, hence `Option`),
an optional `extra_body` dict, and the think-tag removal flag
(`remove_think_prefix` in the source, `removeThink` here). -/
structure OpenAILLMConfig where
  model_name_or_path : String
  temperature : ℚ
  top_p : ℚ
  max_tokens : Int
  max_completion_tokens : Option Int
  extra_body : Option (List (String × String))
  removeThink : Bool
deriving DecidableEq

/-- Keys stripped from `extra_body` for the gpt-5 family. -/
def gpt5StrippedKeys : List String :=
  ["top_p", "top_logprobs", "logprobs", "logit_bias"]

/-- The kwargs that `OpenAILLM.generate` passes to
`chat.completions.create` on its first attempt. -/
def generateCreateKwargs (cfg : OpenAILLMConfig) : Kwargs :=
  let modelName := cfg.model_name_or_path
  let isGpt5 := pyStartsWith modelName "gpt-5"
  let kw : Kwargs :=
    [("model", .vStr modelName), ("messages", .vMsgs),
     ("extra_body", .vBody cfg.extra_body),
     ("temperature", .vRat cfg.temperature), ("top_p", .vRat cfg.top_p)]
  let kw :=
    if isGpt5 then
      let kw := dictSet kw "temperature" (.vRat 1)
      let kw := if (dictGet kw "top_p").isSome then dictPop kw "top_p" else kw
      match dictGet kw "extra_body" with
      | some (.vBody (some body)) =>
          dictSet kw "extra_body"
            (.vBody (some (body.filter (fun p => ¬ gpt5StrippedKeys.contains p.1))))
      | _ => kw
    else kw
  if isGpt5 then
    let maxComp :=
      match cfg.max_completion_tokens with
      | some v => some v
      | none => some cfg.max_tokens
    match maxComp with
    | some v => dictSet kw "max_completion_tokens" (.vInt v)
    | none => kw
  else
    dictSet (dictSet kw "max_tokens" (.vInt cfg.max_tokens)) "top_p" (.vRat cfg.top_p)

/-! ## OpenAI LLM wrapper: fallback control flow of `generate`

The vendor SDK is modelled by the outcomes of the (at most three) attempts
`generate` can make: the first `chat.completions.create` call, the
`responses.create` fallback for the gpt-5 family, and the
`chat.completions.create` retry on the fallback model.  `generate` returns
the result together with the trace of API calls it made, in order.
The final `remove_thinking_tags` post-processing of successful content
(`memos/llms/utils.py`, outside this excerpt) is not modelled: the claims
about `generate` concern call routing and error propagation only.
-/

/-- An API call made by the wrapper, recorded in the call trace. -/
inductive ApiCall where
  | chatCompletion : String → ApiCall
  | responsesCreate : String → ApiCall
deriving DecidableEq

/-- Outcome of one vendor-API attempt: content, or a raised exception message. -/
abbrev Attempt := Except String String

/-- The error-message test used by all fallbacks:
`"invalid model" in msg or "model_not_found" in msg` on the lowercased text. -/
def errorMatches (e : String) : Bool :=
  strContains (pyToLower e) "invalid model" || strContains (pyToLower e) "model_not_found"

/-- `OpenAILLM.generate`: first chat attempt, then (gpt-5 family only) the
Responses API, then the chat retry on `MOS_FALLBACK_MODEL`
(default `"gpt-4o-mini"`; whitespace-stripped only on the gpt-5 path).
Unmatched exceptions propagate unchanged. -/
def OpenAILLM_generate (cfg : OpenAILLMConfig) (env : Env)
    (first respAPI fallback : Attempt) :
    Except String String × List ApiCall :=
  let modelName := cfg.model_name_or_path
  let isGpt5 := pyStartsWith modelName "gpt-5"
  match first with
  | .ok content => (.ok content, [.chatCompletion modelName])
  | .error e =>
    if errorMatches e && isGpt5 then
      match respAPI with
      | .ok content =>
          (.ok content, [.chatCompletion modelName, .responsesCreate modelName])
      | .error _ =>
        let fallbackModel := pyStrip (osGetenvD env "MOS_FALLBACK_MODEL" "gpt-4o-mini")
        (fallback,
         [.chatCompletion modelName, .responsesCreate modelName,
          .chatCompletion fallbackModel])
    else if errorMatches e then
      let fallbackModel := osGetenvD env "MOS_FALLBACK_MODEL" "gpt-4o-mini"
      (fallback, [.chatCompletion modelName, .chatCompletion fallbackModel])
    else
      (.error e, [.chatCompletion modelName])

/-- The chat-completion calls of a trace that use the given model. -/
def chatCallsWith (trace : List ApiCall) (model : String) : List ApiCall :=
  trace.filter (fun c => c = .chatCompletion model)

/-! ## OpenAI LLM wrapper: streaming think-tag bracketing

The token-emission loop at the end of `OpenAILLM.generate_stream`.  A
streamed delta is modelled by its two text fields; Python truthiness makes
an absent attribute and an empty string behave identically, so `""` models
both. -/

/-- One streamed delta: `reasoning_content` and `content` ( `""` = absent or empty). -/
structure StreamChunk where
  reasoning_content : String
  content : String
deriving DecidableEq

/-- The emission loop of `generate_stream`, threading the `reasoning_started`
flag; returns the emitted tokens and the final flag. -/
def streamLoop (removeThink : Bool) : Bool → List StreamChunk → List String × Bool
  | started, [] => ([], started)
  | started, ch :: rest =>
    if ch.reasoning_content ≠ "" then
      let emitOpen := ¬started && ¬removeThink
      let started' := if emitOpen then true else started
      let tail := streamLoop removeThink started' rest
      ((if emitOpen then ["<think>"] else []) ++ ch.reasoning_content :: tail.1, tail.2)
    else if ch.content ≠ "" then
      let emitClose := started && ¬removeThink
      let started' := if emitClose then false else started
      let tail := streamLoop removeThink started' rest
      ((if emitClose then ["</think>"] else []) ++ ch.content :: tail.1, tail.2)
    else
      streamLoop removeThink started rest

/-- The full emitted token sequence of `generate_stream` over a chunk
sequence, including the final unterminated-block close. -/
def generateStreamEmit (removeThink : Bool) (chunks : List StreamChunk) : List String :=
  let r := streamLoop removeThink false chunks
  r.1 ++ (if r.2 && ¬removeThink then ["</think>"] else [])

/-- The provider-supplied texts of a chunk sequence, in emission order and
with no markers: what `generate_stream` forwards when marker removal is
requested. -/
def forwardedTokens (chunks : List StreamChunk) : List String :=
  chunks.filterMap (fun ch =>
    if ch.reasoning_content ≠ "" then some ch.reasoning_content
    else if ch.content ≠ "" then some ch.content
    else none)

/-! ## User-manager configuration records

The three Pydantic config classes of `memos/configs/mem_user.py`, as flat
records, and the backend-tagged sum used by the factories. -/

/-- `SQLiteUserManagerConfig`. -/
structure SQLiteUserManagerConfig where
  user_id : String
  db_path : Option String
deriving DecidableEq

/-- `MySQLUserManagerConfig`. -/
structure MySQLUserManagerConfig where
  user_id : String
  host : String
  port : Int
  username : String
  password : String
  database : String
  charset : String
deriving DecidableEq

/-- `PostgresUserManagerConfig` (the `schema_` field is exposed under its
alias `schema`). -/
structure PostgresUserManagerConfig where
  user_id : String
  host : String
  port : Int
  username : String
  password : String
  database : String
  schema : String
  sslmode : Option String
deriving DecidableEq

/-- A backend-specific user-manager config. -/
inductive UMConfig where
  | sqlite : SQLiteUserManagerConfig → UMConfig
  | mysql : MySQLUserManagerConfig → UMConfig
  | postgres : PostgresUserManagerConfig → UMConfig
deriving DecidableEq

/-- `getattr(config, "user_id", "root")`: every config class has the field. -/
def userIdOf : UMConfig → String
  | .sqlite c => c.user_id
  | .mysql c => c.user_id
  | .postgres c => c.user_id

/-- `UserManagerConfigFactory`: a backend tag plus the instantiated config. -/
structure UserManagerConfigFactory where
  backend : String
  config : UMConfig
deriving DecidableEq

/-- Backends in `UserManagerConfigFactory.backend_to_class` and
`UserManagerFactory.backend_to_class`. -/
def supportedBackend (b : String) : Bool :=
  b = "sqlite" || b = "mysql" || b = "postgres"

/-- `UserManagerConfigFactory.validate_backend`: accepts exactly the three
supported backend names. -/
def validate_backend (b : String) : Except String String :=
  if ¬ supportedBackend b then
    .error ("Unsupported user manager backend: " ++ b)
  else
    .ok b

/-- Decimal digits to a number, `none` on a non-digit or empty input. -/
def digitsToNat : List Char → Option Nat
  | [] => none
  | [c] => if c.isDigit then some (c.toNat - 48) else none
  | c :: rest =>
    if c.isDigit then
      (digitsToNat rest).map (fun n => (c.toNat - 48) * 10 ^ rest.length + n)
    else none

/-- Python `int(...)` on the string read from the environment: an optional
sign followed by decimal digits; anything else raises. -/
def pyInt (s : String) : Except String Int :=
  let fail : Except String Int :=
    .error ("invalid literal for int() with base 10: " ++ s)
  match s.data with
  | '-' :: rest =>
    match digitsToNat rest with
    | some n => .ok (-(n : Int))
    | none => fail
  | '+' :: rest =>
    match digitsToNat rest with
    | some n => .ok (n : Int)
    | none => fail
  | l =>
    match digitsToNat l with
    | some n => .ok (n : Int)
    | none => fail

/-- `_load_mysql_env_config` (`memos/mem_user/factory.py`). -/
def load_mysql_env_config (env : Env) (userId : String) :
    Except String MySQLUserManagerConfig := do
  let port ← pyInt (osGetenvD env "MYSQL_PORT" "3306")
  .ok { user_id := userId
        host := osGetenvD env "MYSQL_HOST" "localhost"
        port := port
        username := osGetenvD env "MYSQL_USERNAME" "root"
        password := osGetenvD env "MYSQL_PASSWORD" ""
        database := osGetenvD env "MYSQL_DATABASE" "memos_users"
        charset := osGetenvD env "MYSQL_CHARSET" "utf8mb4" }

/-- `_load_postgres_env_config` (`memos/mem_user/factory.py`). -/
def load_postgres_env_config (env : Env) (userId : String) :
    Except String PostgresUserManagerConfig := do
  let port ← pyInt (osGetenvD env "MOS_POSTGRES_PORT" (osGetenvD env "POSTGRES_PORT" "5432"))
  let sslraw := osGetenvD env "MOS_POSTGRES_SSLMODE" (osGetenvD env "POSTGRES_SSLMODE" "")
  .ok { user_id := userId
        host := osGetenvD env "MOS_POSTGRES_HOST" (osGetenvD env "POSTGRES_HOST" "localhost")
        port := port
        username := osGetenvD env "MOS_POSTGRES_USERNAME" (osGetenvD env "POSTGRES_USERNAME" "postgres")
        password := osGetenvD env "MOS_POSTGRES_PASSWORD" (osGetenvD env "POSTGRES_PASSWORD" "")
        database := osGetenvD env "MOS_POSTGRES_DATABASE" (osGetenvD env "POSTGRES_DATABASE" "memos_users")
        schema := osGetenvD env "MOS_POSTGRES_SCHEMA" (osGetenvD env "POSTGRES_SCHEMA" "memos")
        sslmode := if sslraw = "" then none else some sslraw }

/-- The environment backend resolved by `UserManagerFactory.from_config`:
`(os.getenv("MOS_USER_MANAGER") or os.getenv("MOS_USER_MANAGER_BACKEND") or "").lower()`. -/
def envBackendOf (env : Env) : String :=
  pyToLower (pyOrStr (osGetenv env "MOS_USER_MANAGER")
    (pyOrStr (osGetenv env "MOS_USER_MANAGER_BACKEND") ""))

/-- `UserManagerFactory.from_config`: the manager to instantiate, as the
backend tag (selecting the manager class) paired with the constructor
kwargs (the config dict). -/
def UserManagerFactory_from_config (env : Env) (f : UserManagerConfigFactory) :
    Except String (String × UMConfig) := do
  if ¬ supportedBackend f.backend then
    throw ("Invalid user manager backend: " ++ f.backend)
  let userId := userIdOf f.config
  let envBackend := envBackendOf env
  if envBackend ≠ "" ∧ supportedBackend envBackend then
    if envBackend = "mysql" then
      let c ← load_mysql_env_config env userId
      return ("mysql", .mysql c)
    else if envBackend = "postgres" then
      let c ← load_postgres_env_config env userId
      return ("postgres", .postgres c)
    else
      return ("sqlite", .sqlite { user_id := userId, db_path := none })
  else
    return (f.backend, f.config)

/-- Backends in `PersistentUserManagerFactory.backend_to_class`
(note: no `"postgres"` entry). -/
def persistentSupportedBackend (b : String) : Bool :=
  b = "sqlite" || b = "mysql"

/-- The environment backend resolved by
`PersistentUserManagerFactory.from_config`. -/
def persistentEnvBackendOf (env : Env) : String :=
  pyToLower (pyOrStr (osGetenv env "MOS_PERSISTENT_USER_MANAGER")
    (pyOrStr (osGetenv env "MOS_USER_MANAGER")
      (pyOrStr (osGetenv env "MOS_USER_MANAGER_BACKEND") "")))

/-- `PersistentUserManagerFactory.from_config`. -/
def PersistentUserManagerFactory_from_config (env : Env)
    (f : UserManagerConfigFactory) : Except String (String × UMConfig) := do
  if ¬ persistentSupportedBackend f.backend then
    throw ("Invalid persistent user manager backend: " ++ f.backend)
  let userId := userIdOf f.config
  let envBackend := persistentEnvBackendOf env
  if envBackend ≠ "" ∧ persistentSupportedBackend envBackend then
    if envBackend = "mysql" then
      let c ← load_mysql_env_config env userId
      return ("mysql", .mysql c)
    else if envBackend = "postgres" then
      let c ← load_postgres_env_config env userId
      return ("postgres", .postgres c)
    else
      return ("sqlite", .sqlite { user_id := userId, db_path := none })
  else
    return (f.backend, f.config)

/-! ## Postgres user manager initialization

`PostgresUserManager.__init__` validates the schema name first, then
performs its database work (schema creation, table creation, root-user
initialization).  The database is modelled as the list of user rows, and
the connection-level work as an explicit action trace, so that "before any
connection is attempted" is the statement that a validation failure leaves
the action trace empty. -/

/-- The `role` column of the users table. -/
inductive UserRole where
  | root
  | admin
  | user
deriving DecidableEq

/-- A row of the users table. -/
structure UserRow where
  user_id : String
  user_name : String
  role : UserRole
deriving DecidableEq

/-- The users table. -/
structure DBState where
  users : List UserRow
deriving DecidableEq

/-- A database-touching action performed during initialization. -/
inductive DbAction where
  | createSchemaIfNotExists : String → DbAction
  | createAllTables : DbAction
deriving DecidableEq

/-- Modelled from the spec: `_init_root_user` (inherited from
`MySQLUserManager` in `memos/mem_user/mysql_user_manager.py`, outside this
excerpt).  Per the spec, the root user is "auto-created on manager
initialization if absent; otherwise created/looked up by name", with role
ROOT, so an existing root user is looked up and the table is unchanged. -/
def init_root_user (userId : String) (db : DBState) : DBState :=
  if db.users.any (fun u => u.role = UserRole.root) then db
  else { users := db.users ++ [{ user_id := userId, user_name := "root", role := UserRole.root }] }

/-- `PostgresUserManager.__init__`: schema validation, then schema/table
creation and root-user initialization.  Returns the resulting table state
(or the validation error) together with the database actions performed. -/
def PostgresUserManager_init (userId schema : String) (db : DBState) :
    Except String DBState × List DbAction :=
  match validate_schema schema with
  | .error e => (.error e, [])
  | .ok s =>
      (.ok (init_root_user userId db),
       [.createSchemaIfNotExists s, .createAllTables])

/-! ## Universal-API embedder fallback

`UniversalAPIEmbedder.embed` from `memos/embedders/universal_api.py`.
The embedding payload is opaque (type parameter `α`); an attempt yields the
`response.data` list or raises.  The config class
(`memos/configs/embedder.py`) is outside this excerpt; `embed` reads only
`provider` and `model_name_or_path`, the latter through
`getattr(..., "text-embedding-3-large")`, hence an `Option`. -/

/-- Modelled from the spec: `UniversalAPIEmbedderConfig`
(`memos/configs/embedder.py`) is not part of this excerpt; `embed` uses its
`provider` tag and its optional `model_name_or_path`. -/
structure UniversalAPIEmbedderConfig where
  provider : String
  model_name_or_path : Option String
deriving DecidableEq

/-- One row of `response.data`, with its `embedding` payload. -/
structure EmbDatum (α : Type) where
  embedding : α
deriving DecidableEq

/-- An `embeddings.create` call, recorded with its model and input texts. -/
structure EmbCall where
  model : String
  input : List String
deriving DecidableEq

/-- `UniversalAPIEmbedder.embed`: one fallback layer.  `first` and
`fallback` are the outcomes of the first and the retry
`embeddings.create` calls; the trace lists the calls made, in order. -/
def UniversalAPIEmbedder_embed {α : Type} (cfg : UniversalAPIEmbedderConfig)
    (env : Env) (texts : List String)
    (first fallback : Except String (List (EmbDatum α))) :
    Except String (List α) × List EmbCall :=
  if cfg.provider = "openai" || cfg.provider = "azure" then
    let modelName := pyStrip (cfg.model_name_or_path.getD "text-embedding-3-large")
    match first with
    | .ok data => (.ok (data.map (fun r => r.embedding)), [{ model := modelName, input := texts }])
    | .error e =>
      if errorMatches e then
        let fallbackModel := pyStrip (osGetenvD env "MOS_EMBED_FALLBACK_MODEL" "text-embedding-3-large")
        match fallback with
        | .ok data =>
            (.ok (data.map (fun r => r.embedding)),
             [{ model := modelName, input := texts }, { model := fallbackModel, input := texts }])
        | .error e2 =>
            (.error e2,
             [{ model := modelName, input := texts }, { model := fallbackModel, input := texts }])
      else
        (.error e, [{ model := modelName, input := texts }])
  else
    (.error ("Unsupported provider: " ++ cfg.provider), [])

/-! ## Theorems settling the claims -/

/-- The acceptance condition on schema names as the claim states it:
non-empty, first character an ASCII letter or underscore, all characters
in `[A-Za-z0-9_]`. -/
def schemaClaimOk (s : String) : Bool :=
  !s.data.isEmpty &&
  s.data.head?.all (fun c => c.isAlpha || c = '_') &&
  s.data.all (fun c => c.isAlpha || c.isDigit || c = '_')

/-- Helper: an accepted schema name passes `_validate_schema` unchanged. -/
theorem validate_schema_ok_of_claimOk (s : String) (hok : schemaClaimOk s = true) :
    validate_schema s = .ok s := by
  rcases hd : s.data with _ | ⟨c, rest⟩
  · simp [schemaClaimOk, hd] at hok
  · simp only [schemaClaimOk, hd, List.isEmpty_cons, Bool.not_false, Bool.true_and,
      List.head?_cons, Option.all, List.all_cons, Bool.and_eq_true] at hok
    obtain ⟨h1, hc, hrest⟩ := hok
    simp [validate_schema, hd, h1]
    exact ⟨hc, fun x hx => List.all_eq_true.mp hrest x hx⟩

/-- Helper: a rejected schema name makes `_validate_schema` raise. -/
theorem validate_schema_error_of_claimBad (s : String) (hbad : schemaClaimOk s = false) :
    ∃ e, validate_schema s = .error e := by
  rcases hd : s.data with _ | ⟨c, rest⟩
  · simp [validate_schema, hd]
  · by_cases h1 : (c.isAlpha || c = '_') = true
    · by_cases h2 : ((c :: rest).any fun ch => ¬allowedSchemaChar ch) = true
      · have hbadP : allowedSchemaChar c = false ∨ ∃ x ∈ rest, allowedSchemaChar x = false := by
          simpa using h2
        simp [validate_schema, hd, h1]
        rw [if_pos hbadP]
        exact ⟨_, rfl⟩
      · exfalso
        simp only [schemaClaimOk, hd, List.isEmpty_cons, Bool.not_false, Bool.true_and,
          List.head?_cons, Option.all, List.all_cons, Bool.and_eq_true,
          Bool.and_eq_false_iff] at hbad
        rcases hbad with hb | hb | hb
        · rw [h1] at hb; cases hb
        · refine h2 (List.any_eq_true.mpr ⟨c, List.mem_cons_self c rest, ?_⟩)
          simpa [allowedSchemaChar] using hb
        · rcases List.all_eq_false.mp hb with ⟨ch, hm, hch⟩
          refine h2 (List.any_eq_true.mpr ⟨ch, List.mem_cons_of_mem c hm, ?_⟩)
          simpa [allowedSchemaChar] using hch
    · simp [validate_schema, hd, h1]

/-- C3: `_validate_schema s` raises a `ValueError` iff `s` is empty, or its
first character is not an ASCII letter or underscore, or `s` contains a
character outside `[A-Za-z0-9_]`; otherwise it returns `s` unchanged.  A
validation error aborts `PostgresUserManager.__init__` before any database
action is performed. -/
theorem validate_schema_correct (s : String) :
    ((∃ e, validate_schema s = .error e) ↔ schemaClaimOk s = false) ∧
    (schemaClaimOk s = true → validate_schema s = .ok s) ∧
    (∀ e userId db, validate_schema s = .error e →
       PostgresUserManager_init userId s db = (.error e, [])) := by
  refine ⟨⟨?_, validate_schema_error_of_claimBad s⟩,
          validate_schema_ok_of_claimOk s, ?_⟩
  · rintro ⟨e, he⟩
    cases hcl : schemaClaimOk s
    · rfl
    · rw [validate_schema_ok_of_claimOk s hcl] at he
      cases he
  · intro e userId db he
    simp [PostgresUserManager_init, he]

/-- C3 witness: `"memos"`, `"_private"` and `"schema_1"` are accepted
unchanged; `""`, `"1abc"` and `"a-b"` are rejected. -/
theorem validate_schema_correct_witness :
    validate_schema "memos" = .ok "memos" ∧
    validate_schema "_private" = .ok "_private" ∧
    validate_schema "schema_1" = .ok "schema_1" ∧
    (∃ e, validate_schema "" = .error e) ∧
    (∃ e, validate_schema "1abc" = .error e) ∧
    (∃ e, validate_schema "a-b" = .error e) ∧
    PostgresUserManager_init "root" "1abc" ⟨[]⟩ =
      (.error "Postgres schema name must start with a letter or underscore", []) := by
  refine ⟨(validate_schema_correct "memos").2.1 (by decide),
          (validate_schema_correct "_private").2.1 (by decide),
          (validate_schema_correct "schema_1").2.1 (by decide),
          (validate_schema_correct "").1.mpr (by decide),
          (validate_schema_correct "1abc").1.mpr (by decide),
          (validate_schema_correct "a-b").1.mpr (by decide),
          (validate_schema_correct "1abc").2.2 _ "root" ⟨[]⟩ rfl⟩

/-- C1: for a model name beginning with `"gpt-5"`, the kwargs built by
`OpenAILLM.generate` contain no `"top_p"` key, contain
`"max_completion_tokens"` (with the configured value, falling back to
`max_tokens`) and no `"max_tokens"` key, and have temperature exactly `1`;
for any other model name the kwargs carry `max_tokens`, `top_p` and the
configured temperature unchanged. -/
theorem generateCreateKwargs_correct (cfg : OpenAILLMConfig) :
    (pyStartsWith cfg.model_name_or_path "gpt-5" = true →
       dictGet (generateCreateKwargs cfg) "top_p" = none ∧
       dictGet (generateCreateKwargs cfg) "max_tokens" = none ∧
       dictGet (generateCreateKwargs cfg) "max_completion_tokens" =
         some (.vInt (cfg.max_completion_tokens.getD cfg.max_tokens)) ∧
       dictGet (generateCreateKwargs cfg) "temperature" = some (.vRat 1)) ∧
    (pyStartsWith cfg.model_name_or_path "gpt-5" = false →
       dictGet (generateCreateKwargs cfg) "max_tokens" = some (.vInt cfg.max_tokens) ∧
       dictGet (generateCreateKwargs cfg) "top_p" = some (.vRat cfg.top_p) ∧
       dictGet (generateCreateKwargs cfg) "temperature" = some (.vRat cfg.temperature) ∧
       dictGet (generateCreateKwargs cfg) "max_completion_tokens" = none) := by
  obtain ⟨mn, temp, tp, mt, mct, eb, rt⟩ := cfg
  constructor
  · intro hg
    cases eb <;> cases mct <;>
      simp only [generateCreateKwargs, hg, if_true, Option.getD] <;>
      exact ⟨rfl, rfl, rfl, rfl⟩
  · intro hg
    cases eb <;> cases mct <;>
      simp only [generateCreateKwargs, hg, Bool.false_eq_true, if_false] <;>
      exact ⟨rfl, rfl, rfl, rfl⟩

/-- C1 witness: concrete gpt-5 and non-gpt-5 configs. -/
theorem generateCreateKwargs_correct_witness :
    pyStartsWith "gpt-5-preview" "gpt-5" = true ∧
    (dictGet (generateCreateKwargs ⟨"gpt-5-preview", 7/10, 9/10, 1024, none, none, false⟩)
        "top_p" = none ∧
     dictGet (generateCreateKwargs ⟨"gpt-5-preview", 7/10, 9/10, 1024, none, none, false⟩)
        "max_tokens" = none ∧
     dictGet (generateCreateKwargs ⟨"gpt-5-preview", 7/10, 9/10, 1024, none, none, false⟩)
        "max_completion_tokens" = some (.vInt 1024) ∧
     dictGet (generateCreateKwargs ⟨"gpt-5-preview", 7/10, 9/10, 1024, none, none, false⟩)
        "temperature" = some (.vRat 1)) ∧
    pyStartsWith "gpt-4o" "gpt-5" = false ∧
    (dictGet (generateCreateKwargs ⟨"gpt-4o", 7/10, 9/10, 1024, none, none, false⟩)
        "max_tokens" = some (.vInt 1024) ∧
     dictGet (generateCreateKwargs ⟨"gpt-4o", 7/10, 9/10, 1024, none, none, false⟩)
        "top_p" = some (.vRat (9/10)) ∧
     dictGet (generateCreateKwargs ⟨"gpt-4o", 7/10, 9/10, 1024, none, none, false⟩)
        "temperature" = some (.vRat (7/10)) ∧
     dictGet (generateCreateKwargs ⟨"gpt-4o", 7/10, 9/10, 1024, none, none, false⟩)
        "max_completion_tokens" = none) := by
  refine ⟨rfl,
    (generateCreateKwargs_correct ⟨"gpt-5-preview", 7/10, 9/10, 1024, none, none, false⟩).1 rfl,
    rfl,
    (generateCreateKwargs_correct ⟨"gpt-4o", 7/10, 9/10, 1024, none, none, false⟩).2 rfl⟩

/-- C2 counterexample: with model `"gpt-5-preview"`, a first-attempt error whose
message contains `"model_not_found"`, and a Responses-API fallback that
succeeds, `OpenAILLM.generate` makes no chat-completion retry at all — in
particular none on the fallback model `"gpt-4o-mini"` — refuting the claim
that every matched error leads to exactly one chat-completion retry on
`MOS_FALLBACK_MODEL`. -/
theorem generate_fallback_counterexample :
    errorMatches "model_not_found" = true ∧
    (OpenAILLM_generate ⟨"gpt-5-preview", 1, 1, 1024, none, none, false⟩ []
        (.error "model_not_found") (.ok "hello") (.ok "unused")).2 =
      [.chatCompletion "gpt-5-preview", .responsesCreate "gpt-5-preview"] ∧
    chatCallsWith
      (OpenAILLM_generate ⟨"gpt-5-preview", 1, 1, 1024, none, none, false⟩ []
        (.error "model_not_found") (.ok "hello") (.ok "unused")).2
      "gpt-4o-mini" = [] := by
  exact ⟨rfl, rfl, rfl⟩

/-- C2 (amended): an unmatched first-attempt error propagates unchanged with no
retry.  A matched error on a non-gpt-5 model leads to exactly one retry: a chat
completion on `MOS_FALLBACK_MODEL` (default `"gpt-4o-mini"`).  A matched error
on a gpt-5-family model first goes to the Responses API on the original model,
and only if that also fails is the single chat retry on the
(whitespace-stripped) fallback model made. -/
theorem generate_fallback_correct (cfg : OpenAILLMConfig) (env : Env)
    (e : String) (respAPI fallback : Attempt) :
    (errorMatches e = false →
       OpenAILLM_generate cfg env (.error e) respAPI fallback =
         (.error e, [.chatCompletion cfg.model_name_or_path])) ∧
    (errorMatches e = true →
       pyStartsWith cfg.model_name_or_path "gpt-5" = false →
       OpenAILLM_generate cfg env (.error e) respAPI fallback =
         (fallback,
          [.chatCompletion cfg.model_name_or_path,
           .chatCompletion (osGetenvD env "MOS_FALLBACK_MODEL" "gpt-4o-mini")])) ∧
    (errorMatches e = true →
       pyStartsWith cfg.model_name_or_path "gpt-5" = true →
       (∀ c, respAPI = .ok c →
          OpenAILLM_generate cfg env (.error e) respAPI fallback =
            (.ok c,
             [.chatCompletion cfg.model_name_or_path,
              .responsesCreate cfg.model_name_or_path])) ∧
       (∀ e2, respAPI = .error e2 →
          OpenAILLM_generate cfg env (.error e) respAPI fallback =
            (fallback,
             [.chatCompletion cfg.model_name_or_path,
              .responsesCreate cfg.model_name_or_path,
              .chatCompletion (pyStrip (osGetenvD env "MOS_FALLBACK_MODEL" "gpt-4o-mini"))]))) := by
  refine ⟨?_, ?_, ?_⟩
  · intro hm
    simp [OpenAILLM_generate, hm]
  · intro hm hg
    simp [OpenAILLM_generate, hm, hg]
  · intro hm hg
    constructor
    · rintro c rfl
      simp [OpenAILLM_generate, hm, hg]
    · rintro e2 rfl
      simp [OpenAILLM_generate, hm, hg]

/-- C2 witness: concrete runs of the three amended branches. -/
theorem generate_fallback_correct_witness :
    OpenAILLM_generate ⟨"gpt-4.1", 1, 1, 256, none, none, false⟩
        [("MOS_FALLBACK_MODEL", "my-fallback")]
        (.error "The Model_Not_Found") (.ok "r") (.ok "c") =
      (.ok "c", [.chatCompletion "gpt-4.1", .chatCompletion "my-fallback"]) ∧
    OpenAILLM_generate ⟨"gpt-4.1", 1, 1, 256, none, none, false⟩ []
        (.error "boom") (.ok "r") (.ok "c") =
      (.error "boom", [.chatCompletion "gpt-4.1"]) ∧
    OpenAILLM_generate ⟨"gpt-5-mini", 1, 1, 256, none, none, false⟩ []
        (.error "invalid model") (.error "also bad") (.ok "c") =
      (.ok "c", [.chatCompletion "gpt-5-mini", .responsesCreate "gpt-5-mini",
                 .chatCompletion "gpt-4o-mini"]) := by
  refine ⟨?_, ?_, ?_⟩
  · exact (generate_fallback_correct ⟨"gpt-4.1", 1, 1, 256, none, none, false⟩
      [("MOS_FALLBACK_MODEL", "my-fallback")] "The Model_Not_Found" (.ok "r") (.ok "c")).2.1
      rfl rfl
  · exact (generate_fallback_correct ⟨"gpt-4.1", 1, 1, 256, none, none, false⟩
      [] "boom" (.ok "r") (.ok "c")).1 rfl
  · exact ((generate_fallback_correct ⟨"gpt-5-mini", 1, 1, 256, none, none, false⟩
      [] "invalid model" (.error "also bad") (.ok "c")).2.2 rfl rfl).2 "also bad" rfl

/-- Helper: the emission loop distributes over list append, threading the
`reasoning_started` flag. -/
theorem streamLoop_append (rm s : Bool) (xs ys : List StreamChunk) :
    streamLoop rm s (xs ++ ys) =
      ((streamLoop rm s xs).1 ++ (streamLoop rm (streamLoop rm s xs).2 ys).1,
       (streamLoop rm (streamLoop rm s xs).2 ys).2) := by
  induction xs generalizing s with
  | nil => simp [streamLoop]
  | cons ch rest ih =>
    by_cases hr : ch.reasoning_content = ""
    · by_cases hc : ch.content = ""
      · simp [streamLoop, hr, hc, ih]
      · simp [streamLoop, hr, hc, ih]
    · simp [streamLoop, hr, ih]

/-- Helper: once a think block is open, it stays open over chunks with no
regular content. -/
theorem streamLoop_state_true (post : List StreamChunk)
    (h : ∀ ch ∈ post, ch.content = "") :
    (streamLoop false true post).2 = true := by
  induction post with
  | nil => rfl
  | cons ch rest ih =>
    have hc : ch.content = "" := h ch (List.mem_cons_self ch rest)
    have ih' := ih (fun x hx => h x (List.mem_cons_of_mem ch hx))
    by_cases hr : ch.reasoning_content = ""
    · simp [streamLoop, hr, hc, ih']
    · simp [streamLoop, hr, ih']

/-- Helper: a reasoning chunk leaves the loop in the open-block state. -/
theorem streamLoop_cons_reasoning_state (s : Bool) (r : StreamChunk)
    (post : List StreamChunk) (hr : r.reasoning_content ≠ "") :
    (streamLoop false s (r :: post)).2 = (streamLoop false true post).2 := by
  cases s <;> simp [streamLoop, hr]

/-- C4: with `remove_think_prefix` false, if the chunk sequence contains a
chunk with non-empty `reasoning_content` followed by no chunk with non-empty
regular content, the emitted sequence still ends with a closing `"</think>"`
marker. -/
theorem generate_stream_closes_think (pre post : List StreamChunk) (r : StreamChunk)
    (hr : r.reasoning_content ≠ "") (hpost : ∀ ch ∈ post, ch.content = "") :
    (generateStreamEmit false (pre ++ r :: post)).getLast? = some "</think>" := by
  have hfin : (streamLoop false false (pre ++ r :: post)).2 = true := by
    rw [streamLoop_append, streamLoop_cons_reasoning_state _ _ _ hr]
    exact streamLoop_state_true post hpost
  simp only [generateStreamEmit, hfin, Bool.not_false, Bool.and_self, if_true]
  exact List.getLast?_concat _

/-- C4 witness: a stream with only one reasoning chunk ends in `"</think>"`. -/
theorem generate_stream_closes_think_witness :
    (generateStreamEmit false ([] ++ ⟨"why", ""⟩ :: [])).getLast? = some "</think>" :=
  generate_stream_closes_think [] [] ⟨"why", ""⟩ (by decide) (by simp)

/-- Helper: with marker removal requested the loop forwards provider text
unchanged and never touches the flag. -/
theorem streamLoop_removeThink (s : Bool) (chunks : List StreamChunk) :
    streamLoop true s chunks = (forwardedTokens chunks, s) := by
  induction chunks generalizing s with
  | nil => rfl
  | cons ch rest ih =>
    by_cases hr : ch.reasoning_content = ""
    · by_cases hc : ch.content = ""
      · simp [streamLoop, forwardedTokens, hr, hc, ih]
      · simp [streamLoop, forwardedTokens, hr, hc, ih]
    · simp [streamLoop, forwardedTokens, hr, ih]

/-- C5: markers are emitted only when `remove_think_prefix` is false.  With
removal requested the output is exactly the forwarded provider texts (no
markers); without it, `"<think>"` is emitted immediately before the first
reasoning token of a block and `"</think>"` immediately before the first
regular-content token that follows an open block. -/
theorem stream_think_markers (chunks rest : List StreamChunk) (ch : StreamChunk) :
    (generateStreamEmit true chunks = forwardedTokens chunks) ∧
    (ch.reasoning_content ≠ "" →
       streamLoop false false (ch :: rest) =
         ("<think>" :: ch.reasoning_content :: (streamLoop false true rest).1,
          (streamLoop false true rest).2)) ∧
    (ch.reasoning_content = "" → ch.content ≠ "" →
       streamLoop false true (ch :: rest) =
         ("</think>" :: ch.content :: (streamLoop false false rest).1,
          (streamLoop false false rest).2)) := by
  refine ⟨?_, ?_, ?_⟩
  · simp [generateStreamEmit, streamLoop_removeThink]
  · intro hr
    simp [streamLoop, hr]
  · intro hr hc
    simp [streamLoop, hr, hc]

/-- C5 witness: concrete marker placement and marker-free forwarding. -/
theorem stream_think_markers_witness :
    (generateStreamEmit true [⟨"r1", ""⟩, ⟨"", "c1"⟩] =
       forwardedTokens [⟨"r1", ""⟩, ⟨"", "c1"⟩]) ∧
    streamLoop false false (⟨"r1", ""⟩ :: [⟨"", "c1"⟩]) =
      ("<think>" :: "r1" :: (streamLoop false true [⟨"", "c1"⟩]).1,
       (streamLoop false true [⟨"", "c1"⟩]).2) ∧
    streamLoop false true (⟨"", "c1"⟩ :: []) =
      ("</think>" :: "c1" :: (streamLoop false false []).1,
       (streamLoop false false []).2) :=
  ⟨(stream_think_markers [⟨"r1", ""⟩, ⟨"", "c1"⟩] [⟨"", "c1"⟩] ⟨"r1", ""⟩).1,
   (stream_think_markers [⟨"r1", ""⟩, ⟨"", "c1"⟩] [⟨"", "c1"⟩] ⟨"r1", ""⟩).2.1 (by decide),
   (stream_think_markers [⟨"r1", ""⟩, ⟨"", "c1"⟩] [] ⟨"", "c1"⟩).2.2 rfl (by decide)⟩

/-- C6: a supported environment backend (`MOS_USER_MANAGER`, else
`MOS_USER_MANAGER_BACKEND`, lowercased) overrides the explicit factory
backend, and the manager configuration is rebuilt from the backend-specific
environment variables — only `user_id` is carried over from the explicit
config. -/
theorem from_config_env_override (env : Env) (f : UserManagerConfigFactory)
    (hb : supportedBackend f.backend = true) :
    (envBackendOf env = "mysql" →
       UserManagerFactory_from_config env f =
         (load_mysql_env_config env (userIdOf f.config)).map
           (fun c => ("mysql", UMConfig.mysql c))) ∧
    (envBackendOf env = "postgres" →
       UserManagerFactory_from_config env f =
         (load_postgres_env_config env (userIdOf f.config)).map
           (fun c => ("postgres", UMConfig.postgres c))) ∧
    (envBackendOf env = "sqlite" →
       UserManagerFactory_from_config env f =
         .ok ("sqlite", UMConfig.sqlite ⟨userIdOf f.config, none⟩)) := by
  refine ⟨?_, ?_, ?_⟩
  · intro he
    have hs : supportedBackend "mysql" = true := by decide
    cases hl : load_mysql_env_config env (userIdOf f.config) with
    | error e => simp [UserManagerFactory_from_config, hb, he, hl, hs, Except.map]
    | ok c => simp [UserManagerFactory_from_config, hb, he, hl, hs, Except.map]
  · intro he
    have hs : supportedBackend "postgres" = true := by decide
    cases hl : load_postgres_env_config env (userIdOf f.config) with
    | error e => simp [UserManagerFactory_from_config, hb, he, hl, hs, Except.map]
    | ok c => simp [UserManagerFactory_from_config, hb, he, hl, hs, Except.map]
  · intro he
    have hs : supportedBackend "sqlite" = true := by decide
    simp [UserManagerFactory_from_config, hb, he, hs]
    rfl

/-- C6 witness: `MOS_USER_MANAGER=MySQL` turns an explicit sqlite factory into
a MySQL manager whose connection config comes from `MYSQL_*` variables, with
only the explicit `user_id` kept. -/
theorem from_config_env_override_witness :
    envBackendOf [("MOS_USER_MANAGER", "MySQL"), ("MYSQL_HOST", "db1")] = "mysql" ∧
    UserManagerFactory_from_config [("MOS_USER_MANAGER", "MySQL"), ("MYSQL_HOST", "db1")]
        ⟨"sqlite", .sqlite ⟨"alice", some "users.db"⟩⟩ =
      (load_mysql_env_config [("MOS_USER_MANAGER", "MySQL"), ("MYSQL_HOST", "db1")]
          (userIdOf (.sqlite ⟨"alice", some "users.db"⟩))).map
        (fun c => ("mysql", UMConfig.mysql c)) ∧
    load_mysql_env_config [("MOS_USER_MANAGER", "MySQL"), ("MYSQL_HOST", "db1")] "alice" =
      .ok ⟨"alice", "db1", 3306, "root", "", "memos_users", "utf8mb4"⟩ :=
  ⟨rfl,
   (from_config_env_override [("MOS_USER_MANAGER", "MySQL"), ("MYSQL_HOST", "db1")]
      ⟨"sqlite", .sqlite ⟨"alice", some "users.db"⟩⟩ (by decide)).1 rfl,
   rfl⟩

/-- C9: a non-empty environment backend value that is not a supported backend
name is silently ignored: the manager is built from the explicit config
factory and no error is raised. -/
theorem from_config_env_unrecognized (env : Env) (f : UserManagerConfigFactory)
    (hb : supportedBackend f.backend = true)
    (_hne : envBackendOf env ≠ "")
    (hns : supportedBackend (envBackendOf env) = false) :
    UserManagerFactory_from_config env f = .ok (f.backend, f.config) := by
  simp [UserManagerFactory_from_config, hb, hns]
  rfl

/-- C9 witness: `MOS_USER_MANAGER=mongodb` is ignored and the explicit sqlite
config is used unchanged. -/
theorem from_config_env_unrecognized_witness :
    envBackendOf [("MOS_USER_MANAGER", "mongodb")] = "mongodb" ∧
    supportedBackend "mongodb" = false ∧
    UserManagerFactory_from_config [("MOS_USER_MANAGER", "mongodb")]
        ⟨"sqlite", .sqlite ⟨"u1", some "users.db"⟩⟩ =
      .ok ("sqlite", .sqlite ⟨"u1", some "users.db"⟩) :=
  ⟨rfl, by decide,
   from_config_env_unrecognized [("MOS_USER_MANAGER", "mongodb")]
     ⟨"sqlite", .sqlite ⟨"u1", some "users.db"⟩⟩ (by decide) (by decide) (by decide)⟩

/-- C10: the persistent factory supports only sqlite and mysql.  The backend
`"postgres"` is accepted by `UserManagerConfigFactory.validate_backend` and by
`UserManagerFactory.from_config`, but
`PersistentUserManagerFactory.from_config` raises a `ValueError` for it, and a
`"postgres"` environment backend does not override the persistent factory's
explicit backend (it is absent from its `backend_to_class` map). -/
theorem persistent_factory_no_postgres (env : Env) (c : UMConfig)
    (f : UserManagerConfigFactory)
    (hb : persistentSupportedBackend f.backend = true)
    (henv : persistentEnvBackendOf env = "postgres") :
    validate_backend "postgres" = .ok "postgres" ∧
    UserManagerFactory_from_config [] ⟨"postgres", c⟩ = .ok ("postgres", c) ∧
    PersistentUserManagerFactory_from_config env ⟨"postgres", c⟩ =
      .error "Invalid persistent user manager backend: postgres" ∧
    PersistentUserManagerFactory_from_config env f = .ok (f.backend, f.config) := by
  refine ⟨rfl, rfl, rfl, ?_⟩
  have hs : persistentSupportedBackend "postgres" = false := by decide
  simp [PersistentUserManagerFactory_from_config, hb, henv, hs]
  rfl

/-- C10 witness: concrete postgres config and `MOS_USER_MANAGER=postgres`
environment against a mysql persistent factory. -/
theorem persistent_factory_no_postgres_witness :
    validate_backend "postgres" = .ok "postgres" ∧
    UserManagerFactory_from_config []
        ⟨"postgres", .postgres ⟨"u2", "hh", 5432, "postgres", "", "memos_users", "memos", none⟩⟩ =
      .ok ("postgres", .postgres ⟨"u2", "hh", 5432, "postgres", "", "memos_users", "memos", none⟩) ∧
    PersistentUserManagerFactory_from_config [("MOS_USER_MANAGER", "postgres")]
        ⟨"postgres", .postgres ⟨"u2", "hh", 5432, "postgres", "", "memos_users", "memos", none⟩⟩ =
      .error "Invalid persistent user manager backend: postgres" ∧
    PersistentUserManagerFactory_from_config [("MOS_USER_MANAGER", "postgres")]
        ⟨"mysql", .mysql ⟨"u", "h", 3306, "root", "", "memos_users", "utf8mb4"⟩⟩ =
      .ok ("mysql", .mysql ⟨"u", "h", 3306, "root", "", "memos_users", "utf8mb4"⟩) := by
  have h := persistent_factory_no_postgres [("MOS_USER_MANAGER", "postgres")]
    (.postgres ⟨"u2", "hh", 5432, "postgres", "", "memos_users", "memos", none⟩)
    ⟨"mysql", .mysql ⟨"u", "h", 3306, "root", "", "memos_users", "utf8mb4"⟩⟩
    (by decide) rfl
  exact ⟨h.1, h.2.1, h.2.2.1, h.2.2.2⟩

/-- C7: whenever `PostgresUserManager.__init__` succeeds, a user with role
ROOT exists in the users table, and if one already existed the table is
unchanged (the root user is looked up, not duplicated). -/
theorem postgres_init_root_user (userId schema : String) (db db' : DBState)
    (h : (PostgresUserManager_init userId schema db).1 = .ok db') :
    (∃ u ∈ db'.users, u.role = UserRole.root) ∧
    ((∃ u ∈ db.users, u.role = UserRole.root) → db' = db) := by
  unfold PostgresUserManager_init at h
  cases hv : validate_schema schema with
  | error e => rw [hv] at h; cases h
  | ok s =>
    rw [hv] at h
    have hdb : db' = init_root_user userId db := by
      cases h
      rfl
    subst hdb
    by_cases hroot : (db.users.any fun u => u.role = UserRole.root) = true
    · constructor
      · rcases List.any_eq_true.mp hroot with ⟨u, hu, hru⟩
        exact ⟨u, by simpa [init_root_user, hroot] using hu, by simpa using hru⟩
      · intro _
        simp [init_root_user, hroot]
    · constructor
      · refine ⟨⟨userId, "root", UserRole.root⟩, ?_, rfl⟩
        simp [init_root_user, hroot]
      · rintro ⟨u, hu, hru⟩
        exact absurd (List.any_eq_true.mpr ⟨u, hu, by simpa using hru⟩) hroot

/-- C7 witness: initializing over an empty table creates the root user. -/
theorem postgres_init_root_user_witness :
    (∃ u ∈ (DBState.mk [⟨"root", "root", UserRole.root⟩]).users,
       u.role = UserRole.root) ∧
    ((∃ u ∈ (DBState.mk []).users, u.role = UserRole.root) →
       DBState.mk [⟨"root", "root", UserRole.root⟩] = DBState.mk []) :=
  postgres_init_root_user "root" "memos" ⟨[]⟩ ⟨[⟨"root", "root", UserRole.root⟩]⟩ rfl

/-- C8: `UniversalAPIEmbedder.embed` has a single fallback layer: a matched
first-call error leads to exactly one retry on `MOS_EMBED_FALLBACK_MODEL`
(default `"text-embedding-3-large"`, stripped) with the same input texts,
whose own error propagates unchanged; an unmatched error propagates with no
retry. -/
theorem embed_fallback_correct {α : Type} (cfg : UniversalAPIEmbedderConfig)
    (env : Env) (texts : List String) (e : String)
    (fallback : Except String (List (EmbDatum α)))
    (hp : (cfg.provider = "openai" || cfg.provider = "azure") = true) :
    (errorMatches e = true →
       (∀ data, fallback = .ok data →
          UniversalAPIEmbedder_embed cfg env texts (.error e) fallback =
            (.ok (data.map (fun r => r.embedding)),
             [⟨pyStrip (cfg.model_name_or_path.getD "text-embedding-3-large"), texts⟩,
              ⟨pyStrip (osGetenvD env "MOS_EMBED_FALLBACK_MODEL" "text-embedding-3-large"),
               texts⟩])) ∧
       (∀ e2, fallback = .error e2 →
          UniversalAPIEmbedder_embed cfg env texts (.error e) fallback =
            (.error e2,
             [⟨pyStrip (cfg.model_name_or_path.getD "text-embedding-3-large"), texts⟩,
              ⟨pyStrip (osGetenvD env "MOS_EMBED_FALLBACK_MODEL" "text-embedding-3-large"),
               texts⟩]))) ∧
    (errorMatches e = false →
       UniversalAPIEmbedder_embed cfg env texts (.error e) fallback =
         (.error e,
          [⟨pyStrip (cfg.model_name_or_path.getD "text-embedding-3-large"), texts⟩])) := by
  refine ⟨fun hm => ⟨?_, ?_⟩, fun hm => ?_⟩
  · rintro data rfl
    simp [UniversalAPIEmbedder_embed, hp, hm]
  · rintro e2 rfl
    simp [UniversalAPIEmbedder_embed, hp, hm]
  · simp [UniversalAPIEmbedder_embed, hp, hm]

/-- C8 witness: a matched error retried on the configured fallback model with
the same texts, and an unmatched error propagating with a single call. -/
theorem embed_fallback_correct_witness :
    UniversalAPIEmbedder_embed (α := List ℚ) ⟨"openai", some " my-model "⟩
        [("MOS_EMBED_FALLBACK_MODEL", "fb-model")] ["t1", "t2"]
        (.error "Invalid MODEL: nope") (.ok [⟨[1/2]⟩]) =
      (.ok [[1/2]], [⟨"my-model", ["t1", "t2"]⟩, ⟨"fb-model", ["t1", "t2"]⟩]) ∧
    UniversalAPIEmbedder_embed (α := List ℚ) ⟨"azure", none⟩ [] ["t"]
        (.error "boom") (.error "unused") =
      (.error "boom", [⟨"text-embedding-3-large", ["t"]⟩]) := by
  constructor
  · exact ((embed_fallback_correct ⟨"openai", some " my-model "⟩
      [("MOS_EMBED_FALLBACK_MODEL", "fb-model")] ["t1", "t2"] "Invalid MODEL: nope"
      (.ok [⟨[1/2]⟩]) rfl).1 rfl).1 [⟨[1/2]⟩] rfl
  · exact (embed_fallback_correct ⟨"azure", none⟩ [] ["t"] "boom"
      (.error "unused") rfl).2 rfl

end MemOS